import Mathlib

/-!
Verification development for the "Regression Maker" / "EmotionAnalyser"
repository.  Shallow embedding of the relevant Python code:

* `src/Regression Maker/src/ui/features.py` — the wizard navigation state
  machine of `DataViewer` (`next`, `back`, `drive_through`, `steps_guide`,
  `confirm_preprocessing`, `load_data`).
* `src/Regression Maker/src/data_preparation/import_files.py` — `import_data`.
* `src/Regression Maker/src/data_preparation/data_preprocessing.py` —
  `remove_missing_values`, `fill_with_mean`, `fill_with_median`,
  `fill_with_constant`.
* `src/Regression Maker/src/model_management/scikit_learn.py` —
  `linear_regression` (label encoding, 80/20 split with fixed seed,
  formula string construction).
* `src/Regression Maker/src/model_management/model_saver.py` /
  `model_loader.py` — `save_model` / `load_model`.
* `src/EmotionAnalyser/src/load_data.py` — `clean`, `add_emotion`.

Machine integers do not occur (Python ints are unbounded, modelled by `Int`);
floating point values are abstracted by `ℚ`.
-/

/- ============================================================
   Wizard navigation state machine (`DataViewer` in ui/features.py)
   ============================================================

State relevant to navigation, from `DataViewer.__init__`:
  `self.move = 1`, `self.empty_values = False`, `self.nan_solved = False`,
  `self.data_table = None` (modelled as `dataLoaded = false`);
  `self.nan_data` is first created in `detect_missing_values` /
  `confirm_preprocessing`, modelled with initial value `false`;
  the enabled flag of the "Next ->" button starts `False`
  (`setup_navigation_buttons`). -/

structure WizState where
  move : Int
  empty_values : Bool
  nan_solved : Bool
  nan_data : Bool
  dataLoaded : Bool
  nextEnabled : Bool
deriving DecidableEq, Repr

/-- Embeds `DataViewer.steps_guide`: the only navigation-relevant state
effect is in the `move == 2` branch, which enables the next button
iff `nan_data` is false. -/
def steps_guide (s : WizState) : WizState :=
  if s.move = 2 then { s with nextEnabled := !s.nan_data } else s

/-- Embeds `DataViewer.drive_through`: per-step panel wiring.  At step 1 the
next button is enabled iff a data table exists; at step 2 `steps_guide`
runs first and then the `nan_solved` test overrides the next button's
enabled state; at step 3 the next button is disabled.  Any other value of
`move` falls through all branches and changes nothing. -/
def drive_through (s : WizState) : WizState :=
  if s.move = 1 then
    { steps_guide s with nextEnabled := s.dataLoaded }
  else if s.move = 2 then
    { steps_guide s with nextEnabled := s.nan_solved }
  else if s.move = 3 then
    { steps_guide s with nextEnabled := false }
  else s

/-- Embeds `DataViewer.next`: guarded by the button being enabled (a disabled
Qt button cannot be clicked); the handler itself tests `move < 3`, adds 1
when `empty_values` holds and 2 otherwise, then runs `drive_through`. -/
def wizNext (s : WizState) : WizState :=
  if s.nextEnabled ∧ s.move < 3 then
    drive_through { s with move := s.move + (if s.empty_values then 1 else 2) }
  else s

/-- Embeds `DataViewer.back`: the handler tests `move > 1`, subtracts 1 when
`empty_values` holds and 2 otherwise, then runs `drive_through`. -/
def wizBack (s : WizState) : WizState :=
  if s.move > 1 then
    drive_through { s with move := s.move - (if s.empty_values then 1 else 2) }
  else s

/-- Embeds a successful `DataViewer.load_data` on a non-empty frame, possible
only at step 1 (the load / choose-another-file buttons are visible only in
`first_step_layout`, which `drive_through` hides at steps 2 and 3):
`display_data_in_table` sets the data table and enables the next button,
then `detect_missing_values` sets `empty_values` (and, only when missing
values exist, `nan_data`) from the loaded frame. -/
def wizLoad (hasMissing : Bool) (s : WizState) : WizState :=
  if s.move = 1 then
    { s with dataLoaded := true, nextEnabled := true,
             empty_values := hasMissing,
             nan_data := if hasMissing then true else s.nan_data }
  else s

/-- Embeds `DataViewer.confirm_preprocessing` applying one of the cleaning
strategies, possible only at step 2 (the apply button lives in
`nan_layout`, visible only there): clears `nan_data`, enables the next
button and records `nan_solved = True`; the final
`display_data_in_table` call re-enables the next button. -/
def wizApply (s : WizState) : WizState :=
  if s.move = 2 then
    { s with nan_data := false, nextEnabled := true, nan_solved := true }
  else s

/-- User actions that drive the wizard after the welcome screen. -/
inductive WizEvent where
  | load (hasMissing : Bool)
  | next
  | back
  | applyStrategy
deriving DecidableEq, Repr

def wizStep (s : WizState) : WizEvent → WizState
  | .load h => wizLoad h s
  | .next => wizNext s
  | .back => wizBack s
  | .applyStrategy => wizApply s

/-- Embeds `DataViewer.__init__` followed by `delete_welcome` (which runs
`drive_through` once at step 1 before the user can act). -/
def wizInit : WizState :=
  drive_through { move := 1, empty_values := false, nan_solved := false,
                  nan_data := false, dataLoaded := false, nextEnabled := false }

/-- States reachable from the initial wizard state by user actions. -/
inductive WizReachable : WizState → Prop where
  | init : WizReachable wizInit
  | step {s : WizState} (hs : WizReachable s) (e : WizEvent) :
      WizReachable (wizStep s e)

/-- Inductive invariant of the wizard: the step counter stays in [1,3], step 2
is only ever entered when missing values were detected, and at step 2 the
next button is disabled while no strategy has been applied. -/
def WizInv (s : WizState) : Prop :=
  1 ≤ s.move ∧ s.move ≤ 3 ∧
    (s.move = 2 → s.empty_values = true) ∧
    (s.move = 2 → s.nan_solved = false → s.nextEnabled = false)

/- ============================================================
   Tables (pandas DataFrames) and missing-value handling
   (data_preparation/data_preprocessing.py)
   ============================================================

A DataFrame is modelled as a rectangular grid of cells under a header that
records each column's name and whether its dtype is numeric.  A cell is
missing (`NaN` / `None` in pandas), a number (floats abstracted by `ℚ`),
or a string.  -/

inductive Cell where
  | null
  | num (q : ℚ)
  | str (s : String)
deriving DecidableEq, Repr

def Cell.isNull : Cell → Bool
  | .null => true
  | _ => false

def Cell.asNum : Cell → Option ℚ
  | .num q => some q
  | _ => none

structure ColMeta where
  name : String
  numeric : Bool
deriving DecidableEq, Repr

structure Table where
  header : List ColMeta
  rows : List (List Cell)
deriving DecidableEq, Repr

/-- Dtype of column `j`, as `df.select_dtypes(include=["number"])` sees it;
out-of-range columns count as non-numeric. -/
def Table.colNumeric (t : Table) (j : ℕ) : Bool :=
  (t.header.getD j ⟨"", false⟩).numeric

/-- Membership test used by `df.dropna()`: does the row contain a null? -/
def rowHasNull (r : List Cell) : Bool :=
  r.any Cell.isNull

/-- Embeds `remove_missing_values` (data_preprocessing.py): `df.dropna()`
keeps exactly the rows without any null cell. -/
def remove_missing_values (t : Table) : Table :=
  { t with rows := t.rows.filter (fun r => !rowHasNull r) }

/-- Non-null numeric values of column `j`, the sample over which
`SimpleImputer` computes its per-column statistic. -/
def Table.colVals (t : Table) (j : ℕ) : List ℚ :=
  t.rows.filterMap (fun r => (r.getD j .null).asNum)

/-- Arithmetic mean, 0 on an empty sample (`SimpleImputer` instead drops an
all-missing column, which makes the subsequent frame assignment in the
source raise; the claims checked here never evaluate that statistic). -/
def meanQ (xs : List ℚ) : ℚ :=
  xs.sum / xs.length

/-- Insert into a sorted list, preserving sortedness. -/
def insertSorted (le : α → α → Bool) (a : α) : List α → List α
  | [] => [a]
  | b :: bs => if le a b then a :: b :: bs else b :: insertSorted le a bs

/-- Stable insertion sort (the sorting abstraction used for numpy's sorted
outputs). -/
def insertionSort (le : α → α → Bool) : List α → List α
  | [] => []
  | a :: as => insertSorted le a (insertionSort le as)

/-- Median as numpy computes it: middle element of the sorted sample, or the
average of the two middle elements for an even-sized sample. -/
def medianQ (xs : List ℚ) : ℚ :=
  let ys := insertionSort (fun a b => decide (a ≤ b)) xs
  let n := ys.length
  if n % 2 = 1 then ys.getD (n / 2) 0
  else (ys.getD (n / 2 - 1) 0 + ys.getD (n / 2) 0) / 2

/-- Shared shape of the three `SimpleImputer` strategies as the source uses
them: `df[num_cols] = imputer.fit_transform(df[num_cols])` replaces every
null cell of every numeric column by the per-column statistic `stat` and
leaves all other cells in place. -/
def imputeNumeric (stat : Table → ℕ → ℚ) (t : Table) : Table :=
  { t with rows := t.rows.map (fun r => r.mapIdx (fun j c =>
      if t.colNumeric j ∧ c.isNull then .num (stat t j) else c)) }

/-- Embeds `fill_with_mean` (data_preprocessing.py). -/
def fill_with_mean (t : Table) : Table :=
  imputeNumeric (fun t j => meanQ (t.colVals j)) t

/-- Embeds `fill_with_median` (data_preprocessing.py). -/
def fill_with_median (t : Table) : Table :=
  imputeNumeric (fun t j => medianQ (t.colVals j)) t

/-- Embeds `fill_with_constant` (data_preprocessing.py) once the user has
confirmed the numeric value `v` in the dialog. -/
def fill_with_constant (v : ℚ) (t : Table) : Table :=
  imputeNumeric (fun _ _ => v) t

/-- Cells of column `j`, read off row by row (out-of-range reads give null,
matching the rectangular frames pandas produces). -/
def Table.column (t : Table) (j : ℕ) : List Cell :=
  t.rows.map (fun r => r.getD j .null)

/-- Frame with one categorical column (holding a null) and one numeric
column, used to witness C4 on concrete data. -/
def catNumTable : Table :=
  { header := [⟨"species", false⟩, ⟨"weight", true⟩],
    rows := [[.str "cat", .num 2], [.null, .null], [.str "dog", .num 4]] }

/- ============================================================
   Data importer (data_preparation/import_files.py)
   ============================================================ -/

/-- Index of the last occurrence of `c` in the character list (Python's
`str.rfind`, restricted to single-character needles), `none` if absent. -/
def lastIdx (c : Char) : List Char → Option ℕ
  | [] => none
  | a :: as =>
      match lastIdx c as with
      | some j => some (j + 1)
      | none => if a = c then some 0 else none

/-- Embeds `os.path.splitext(p)[-1]` (posix rules, as used by `import_data`):
the extension starts at the last dot, provided some non-dot character
stands strictly between the last path separator and that dot; leading
dots of the basename never open an extension. -/
def splitextExt (p : String) : String :=
  let cs := p.data
  let sepIdx : Int := match lastIdx '/' cs with | some i => (i : Int) | none => -1
  let dotIdx : Int := match lastIdx '.' cs with | some i => (i : Int) | none => -1
  if sepIdx < dotIdx then
    if (List.range cs.length).any (fun k =>
        decide ((sepIdx + 1).toNat ≤ k ∧ (k : Int) < dotIdx ∧
          cs.getD k '.' ≠ '.')) then
      String.mk (cs.drop dotIdx.toNat)
    else ""
  else ""

/-- Embeds `os.path.splitext(file_path)[-1].lower()`. -/
def extLower (p : String) : String :=
  String.mk ((splitextExt p).data.map Char.toLower)

/-- Exception a pandas/sqlite reader can raise, as `import_data`
distinguishes them: the two classes its `except` clause names
(`pd.errors.EmptyDataError`, `pd.errors.ParserError`), a `ValueError`
raised by the reader itself (e.g. `pd.read_excel` on a workbook whose
format cannot be determined), and every other library error (corrupt
workbook, `DatabaseError` when `test_table` is missing, ...). -/
inductive PyExc where
  | emptyDataError
  | parserError
  | valueError
  | otherError
deriving DecidableEq, Repr

/-- Ambient file system as `import_data` observes it: existence per path,
and the outcome — a frame or a raised exception — of reading a path with
each of the three readers (`pd.read_csv`, `pd.read_excel`,
`pd.read_sql_query` over a SQLite connection). -/
structure FileSystem where
  pathExists : String → Bool
  readCsv : String → Except PyExc Table
  readExcel : String → Except PyExc Table
  readSqlite : String → Except PyExc Table

/-- Outcome of `import_data`: a frame, `FileNotFoundError`, `ValueError`
(raised directly for an unsupported extension, re-raised from the two
caught pandas errors, or propagated from a reader), or any other
exception propagating unhandled out of the function. -/
inductive ImportResult where
  | ok (t : Table)
  | fileNotFoundError
  | valueError
  | otherError
deriving DecidableEq, Repr

/-- Body of the `try` block of `import_data`: the reader dispatched on the
lower-cased extension, an unknown extension raising `ValueError`. -/
def dispatchReader (fs : FileSystem) (file_path : String) :
    Except PyExc Table :=
  let file_ext := extLower file_path
  if file_ext = ".csv" then fs.readCsv file_path
  else if file_ext = ".xlsx" ∨ file_ext = ".xls" then fs.readExcel file_path
  else if file_ext = ".sqlite" ∨ file_ext = ".db" then
    fs.readSqlite file_path
  else .error .valueError

/-- How an exception escaping the `try` block of `import_data` surfaces to
the caller: the two caught pandas classes are re-raised as `ValueError`;
a `ValueError` (the unsupported-extension raise included) is not in the
caught tuple and propagates as itself; any other exception propagates
unchanged. -/
def pyExcToResult : PyExc → ImportResult
  | .emptyDataError => .valueError
  | .parserError => .valueError
  | .valueError => .valueError
  | .otherError => .otherError

/-- Embeds `import_data` (import_files.py): existence check first, then the
`try` block dispatching on the lower-cased extension, whose `except`
clause names exactly `pd.errors.EmptyDataError` and
`pd.errors.ParserError` and re-raises them as `ValueError`; every other
exception leaves the function unhandled. -/
def import_data (fs : FileSystem) (file_path : String) : ImportResult :=
  if !fs.pathExists file_path then .fileNotFoundError
  else
    match dispatchReader fs file_path with
    | .ok t => .ok t
    | .error .emptyDataError => .valueError
    | .error .parserError => .valueError
    | .error .valueError => .valueError
    | .error .otherError => .otherError

/-- Extensions `import_data` dispatches on. -/
def supportedExt (e : String) : Bool :=
  e = ".csv" || e = ".xlsx" || e = ".xls" || e = ".sqlite" || e = ".db"

/-- File system with a single well-formed CSV file at path "data.csv", used
to witness the amended C2. -/
def fsCsvOnly : FileSystem :=
  { pathExists := fun q => q = "data.csv",
    readCsv := fun _ => .ok catNumTable,
    readExcel := fun _ => .error .otherError,
    readSqlite := fun _ => .error .otherError }

/-- File system with a single existing Excel file at path "book.xlsx" whose
read raises `ValueError` (a workbook whose format `pd.read_excel` cannot
determine): the counterexample input for C2 as stated. -/
def fsBadXlsx : FileSystem :=
  { pathExists := fun q => q = "book.xlsx",
    readCsv := fun _ => .error .otherError,
    readExcel := fun _ => .error .valueError,
    readSqlite := fun _ => .error .otherError }

/- ============================================================
   Model persistence (model_management/model_saver.py, model_loader.py)
   ============================================================ -/

/-- Fitted `sklearn.linear_model.LinearRegression`: an intercept and one
coefficient per input column (floats abstracted by `ℚ`). -/
structure LinModel where
  intercept : ℚ
  coef : List ℚ
deriving DecidableEq, Repr

/-- Prediction of the fitted model on one sample: intercept plus the dot
product of coefficients and feature values. -/
def LinModel.predict (m : LinModel) (x : List ℚ) : ℚ :=
  m.intercept + ((m.coef.zip x).map (fun p => p.1 * p.2)).sum

/-- Fields of `ModelSaver` / of the `model_data` dictionary it serializes:
model, formula, metrics, column names, description and optional plot
(the plot object abstracted by a string). -/
structure ModelBundle where
  model : LinModel
  formula : String
  r_squared : ℚ
  mse : ℚ
  input_columns : List String
  output_column : List String
  description : String
  graph : Option String
deriving DecidableEq, Repr

/-- Serialized artifacts on disk, one optional bundle per path (joblib
round-trips the dictionary it is given; corrupt or absent files hold
nothing). -/
def FileStore : Type := String → Option ModelBundle

/-- Embeds the description defaulting in `ModelSaver.save_model`:
`self.description.strip() if self.description.strip() else
"No description provided."`. -/
def defaultedDescription (d : String) : String :=
  if d.trim = "" then "No description provided." else d.trim

/-- Embeds `ModelSaver.save_model`: writes the `model_data` dictionary —
the saver's fields with the description defaulted — to `file_path` via
`joblib.dump`. -/
def save_model (s : ModelBundle) (file_path : String) (st : FileStore) :
    FileStore :=
  fun p =>
    if p = file_path then
      some { s with description := defaultedDescription s.description }
    else st p

/-- Embeds `ModelLoader.load_model`: `joblib.load` returns the dictionary
stored at `file_path`, or fails (`none`) when nothing loadable is there. -/
def load_model (file_path : String) (st : FileStore) : Option ModelBundle :=
  st file_path

/- ============================================================
   Regression engine (model_management/scikit_learn.py)
   ============================================================ -/

def Cell.isNum : Cell → Bool
  | .num _ => true
  | _ => false

/-- Numeric reading of a cell used when building the feature matrix
(non-numeric cells no longer occur there after label encoding). -/
def Cell.toQ : Cell → ℚ
  | .num q => q
  | _ => 0

/-- Embeds `astype(str)` on a cell of an object column: pandas renders a
missing value as the string "nan"; the rendering of stray numeric values
inside an object column is abstracted by `toString`. -/
def cellToPyStr : Cell → String
  | .null => "nan"
  | .num q => toString q
  | .str s => s

/-- Classes of `sklearn.preprocessing.LabelEncoder.fit`: the distinct values
in ascending order (`np.unique`). -/
def sortedClasses (xs : List String) : List String :=
  insertionSort (fun a b => decide (a ≤ b)) xs.dedup

/-- Encoder classes for column `j` of the frame. -/
def Table.colClasses (t : Table) (j : ℕ) : List String :=
  sortedClasses ((t.column j).map cellToPyStr)

/-- Embeds `encoder.fit_transform(data[column].astype(str))` followed by
`astype("float64")` on one cell: the float-valued index of the cell's
string rendering among the sorted classes of its column. -/
def encodeCellAt (t : Table) (j : ℕ) (c : Cell) : Cell :=
  .num (((t.colClasses j).indexOf (cellToPyStr c) : ℕ) : ℚ)

/-- Embeds the encoding loop opening `linear_regression`: every column that
`select_dtypes(exclude=["number"])` lists (computed before the loop) is
overwritten in place with its float64 label encoding; numeric columns are
untouched.  This is the state of the caller's frame after the call. -/
def encodeNonNumeric (t : Table) : Table :=
  { header := t.header.map (fun m => if m.numeric then m else ⟨m.name, true⟩),
    rows := t.rows.map (fun r => r.mapIdx (fun j c =>
      if t.colNumeric j then c else encodeCellAt t j c)) }

/-- Index of a named column in the frame (header length when absent; the
claims only use names that exist). -/
def Table.colIdxOf (t : Table) (name : String) : ℕ :=
  (t.header.findIdx? (fun m => m.name = name)).getD t.header.length

/-- Embeds `data[cols]` as a row-major matrix of floats. -/
def Table.matrixOf (t : Table) (cols : List String) : List (List ℚ) :=
  t.rows.map (fun r => cols.map (fun name => (r.getD (t.colIdxOf name) .null).toQ))

/-- Linear congruential step standing in for numpy's PRNG stream: the only
property the development uses is that the stream is a function of the
seed. -/
def lcgNext (x : ℕ) : ℕ :=
  (1103515245 * x + 12345) % 2147483648

/-- Fisher–Yates-style draw of a permutation of `avail` driven by the PRNG
state, with fuel for structural termination. -/
def drawLoop : ℕ → ℕ → List ℕ → List ℕ
  | 0, _, _ => []
  | _, _, [] => []
  | fuel + 1, st, a :: as =>
      let avail := a :: as
      let k := st % avail.length
      avail.getD k 0 :: drawLoop fuel (lcgNext st) (avail.eraseIdx k)

/-- Pseudorandom permutation of `0..n-1` determined by `seed`. -/
def permOfSeed (seed : ℕ) (n : ℕ) : List ℕ :=
  drawLoop n seed (List.range n)

/-- Core of `train_test_split(x, y, test_size=0.2, random_state=seed)`:
shuffle the row indices with the seeded PRNG and put the first
`ceil(0.2 * n)` shuffled rows in the test split, the rest in the train
split. -/
def ttsSeeded (seed : ℕ) (xs : List (List ℚ)) (ys : List ℚ) :
    List (List ℚ) × List (List ℚ) × List ℚ × List ℚ :=
  let n := xs.length
  let n_test := (n + 4) / 5
  let perm := permOfSeed seed n
  let testIdx := perm.take n_test
  let trainIdx := perm.drop n_test
  (trainIdx.map (fun i => xs.getD i []), testIdx.map (fun i => xs.getD i []),
   trainIdx.map (fun i => ys.getD i 0), testIdx.map (fun i => ys.getD i 0))

/-- Embeds `train_test_split` with an explicit ambient PRNG state: passing
`random_state=None` would seed from the ambient state, while the source
always passes the literal 42. -/
def train_test_split (xs : List (List ℚ)) (ys : List ℚ)
    (random_state : Option ℕ) (rngState : ℕ) :
    List (List ℚ) × List (List ℚ) × List ℚ × List ℚ :=
  ttsSeeded (random_state.getD rngState) xs ys

/-- Embeds `mean_squared_error(y_test, predictions)`. -/
def mean_squared_error (y : List ℚ) (pred : List ℚ) : ℚ :=
  meanQ ((y.zip pred).map (fun p => (p.1 - p.2) ^ 2))

/-- Embeds `r2_score(y_test, predictions)` (1 minus residual over total sum
of squares). -/
def r2_score (y : List ℚ) (pred : List ℚ) : ℚ :=
  1 - ((y.zip pred).map (fun p => (p.1 - p.2) ^ 2)).sum /
    (y.map (fun v => (v - meanQ y) ^ 2)).sum

/-- Single-quote character, for Python `repr` of strings. -/
def squote : String :=
  String.mk [Char.ofNat 39]

/-- Python `str` of a list of strings, as an f-string renders it:
`["a", "b"]` prints as a bracketed, comma-separated, single-quoted list. -/
def pyStrListRepr (xs : List String) : String :=
  "[" ++ String.intercalate ", " (xs.map (fun s => squote ++ s ++ squote)) ++ "]"

/-- Round to the nearest integer, ties to even (the rounding of "%.2f" on an
exactly representable value). -/
def roundHalfEven (x : ℚ) : ℤ :=
  let f := ⌊x⌋
  if x - f < 1 / 2 then f
  else if 1 / 2 < x - f then f + 1
  else if f % 2 = 0 then f else f + 1

/-- Two right-aligned zero-padded decimal digits. -/
def pad2 (n : ℕ) : String :=
  if n < 10 then "0" ++ toString n else toString n

/-- Embeds the Python format specifier `:.2f`: fixed-point rendering with
two decimals (rounding of the underlying binary double abstracted as
half-even rounding of the rational). -/
def fmt2 (q : ℚ) : String :=
  let n := roundHalfEven (q * 100)
  let sign := if q < 0 then "-" else ""
  sign ++ toString (n.natAbs / 100) ++ "." ++ pad2 (n.natAbs % 100)

/-- Embeds the formula construction of `linear_regression` (lines 52–57):
`f"{output_columns} = {intercept:.2f}"` — note `output_columns` is the
list the UI passes, so the f-string renders a Python list — extended by
`f" + ({coef:.2f}) * {input_columns[i]}"` per coefficient. -/
def build_formula (output_columns : List String) (intercept : ℚ)
    (coefficients : List ℚ) (input_columns : List String) : String :=
  coefficients.enum.foldl
    (fun formula p =>
      formula ++ " + (" ++ fmt2 p.2 ++ ") * " ++ input_columns.getD p.1 "")
    (pyStrListRepr output_columns ++ " = " ++ fmt2 intercept)

/-- Results tuple of `linear_regression`: formula, MSE, R², test split,
predictions and the fitted model. -/
structure RegOutput where
  formula : String
  mse : ℚ
  r2 : ℚ
  x_test : List (List ℚ)
  y_test : List ℚ
  predictions : List ℚ
  model : LinModel
deriving DecidableEq, Repr

/-- Embeds `linear_regression` (scikit_learn.py).  The ordinary least squares
solver inside `LinearRegression.fit` is a deterministic library function,
abstracted as the parameter `fit`; `rngState` is the ambient PRNG state
that `train_test_split` would consume were `random_state` not fixed to
42.  Returns the results tuple together with the final state of the
caller's frame (which the encoding loop mutates in place). -/
def linear_regression (fit : List (List ℚ) → List ℚ → LinModel)
    (rngState : ℕ) (data : Table)
    (input_columns output_columns : List String) : RegOutput × Table :=
  let data2 := encodeNonNumeric data
  let x := data2.matrixOf input_columns
  let y := (data2.matrixOf output_columns).flatten
  let split := train_test_split x y (some 42) rngState
  let x_train := split.1
  let x_test := split.2.1
  let y_train := split.2.2.1
  let y_test := split.2.2.2
  let model := fit x_train y_train
  let predictions := x_test.map (fun r => model.predict r)
  let mse := mean_squared_error y_test predictions
  let r2 := r2_score y_test predictions
  let formula := build_formula output_columns model.intercept
    model.coef input_columns
  (⟨formula, mse, r2, x_test, y_test, predictions, model⟩, data2)

/-- Constant OLS solver used to instantiate the `fit` parameter on concrete
inputs (the development's claims do not depend on the solver's output
values). -/
def constFit : List (List ℚ) → List ℚ → LinModel :=
  fun _ _ => ⟨1, [2]⟩

/-- Concatenation of a list of strings (structural, kernel-friendly). -/
def strConcat : List String → String
  | [] => ""
  | a :: as => a ++ strConcat as

/-- Formula string in the exact shape the claim under scrutiny states it:
the bare output column name, then ` = `, the 2-decimal intercept, and
chunks `(c_i)*col_i` joined by ` + `. -/
def claimedFormula (out : String) (b : ℚ) (coefs : List ℚ)
    (cols : List String) : String :=
  out ++ " = " ++ fmt2 b ++
    strConcat ((coefs.zip cols).map
      (fun p => " + (" ++ fmt2 p.1 ++ ")*" ++ p.2))

/-- Formula string as the code actually builds it when the UI hands it a
one-element output-column list: the Python list rendering `['out']` in
place of the bare name, and ` * ` (spaced) between coefficient and column
name. -/
def amendedFormula (out : String) (b : ℚ) (coefs : List ℚ)
    (cols : List String) : String :=
  pyStrListRepr [out] ++ " = " ++ fmt2 b ++
    strConcat ((coefs.zip cols).map
      (fun p => " + (" ++ fmt2 p.1 ++ ") * " ++ p.2))

/- ============================================================
   Emotion dataset cleaning (EmotionAnalyser/src/load_data.py)
   ============================================================

`clean` extracts a sentence with `re.search(r"Frase:\s*(.+?)\. Clasifica", t)`
and a label with `re.search(r"\[/INST\]\s*(\d)\s*</s>", t)`.  The two
patterns are embedded as specialised matchers over character lists with
Python's semantics: leftmost match position, greedy `\s*` with backtracking,
lazy `(.+?)` whose `.` excludes the newline. -/

/-- Python `\s` over the ASCII range (space, tab, newline, carriage return,
form feed, vertical tab). -/
def isPyWs (c : Char) : Bool :=
  c = ' ' || c = '\t' || c = '\n' || c = '\r' ||
    c = Char.ofNat 12 || c = Char.ofNat 11

/-- Does the second list start with the first? -/
def startsWith : List Char → List Char → Bool
  | [], _ => true
  | _ :: _, [] => false
  | p :: ps, c :: cs => p = c && startsWith ps cs

/-- Length of the maximal whitespace prefix. -/
def countLeadingWs : List Char → ℕ
  | [] => 0
  | c :: cs => if isPyWs c then countLeadingWs cs + 1 else 0

/-- Drop the maximal whitespace prefix. -/
def dropLeadingWs (cs : List Char) : List Char :=
  cs.drop (countLeadingWs cs)

/-- Embeds Python `str.strip()`: remove leading and trailing whitespace. -/
def pyStrip (s : String) : String :=
  String.mk ((dropLeadingWs (dropLeadingWs s.data).reverse).reverse)

/-- Literal `. Clasifica` closing the sentence pattern. -/
def dotClasifica : List Char :=
  ". Clasifica".data

/-- Lazy `(.+?)\. Clasifica` at the current position: the shortest nonempty
run of non-newline characters followed by the closing literal. -/
def fraseGroup : List Char → Option (List Char)
  | [] => none
  | c :: cs =>
      if c = '\n' then none
      else if startsWith dotClasifica cs then some [c]
      else
        match fraseGroup cs with
        | some g => some (c :: g)
        | none => none

/-- Greedy `\s*` with backtracking before the lazy group: try consuming `k`
whitespace characters, longest first. -/
def tryWsFrase : ℕ → List Char → Option (List Char)
  | 0, cs => fraseGroup cs
  | k + 1, cs =>
      match fraseGroup (cs.drop (k + 1)) with
      | some g => some g
      | none => tryWsFrase k cs

/-- The full sentence pattern anchored at the current position. -/
def matchFraseAt (cs : List Char) : Option (List Char) :=
  if startsWith "Frase:".data cs then
    let rest := cs.drop 6
    tryWsFrase (countLeadingWs rest) rest
  else none

/-- Embeds `re.search` of the sentence pattern: first matching start
position, scanning left to right. -/
def searchFrase : List Char → Option (List Char)
  | [] => none
  | c :: cs =>
      match matchFraseAt (c :: cs) with
      | some g => some g
      | none => searchFrase cs

/-- Literal `[/INST]` opening the label pattern. -/
def instTok : List Char :=
  "[/INST]".data

/-- Literal `</s>` closing the label pattern. -/
def closeTok : List Char :=
  "</s>".data

/-- The label pattern `\[/INST\]\s*(\d)\s*</s>` anchored at the current
position.  Maximal-munch `\s*` is exact here: a digit and `<` are not
whitespace, so no backtracking on `\s*` can succeed where the maximal
consumption fails. -/
def matchLabelAt (cs : List Char) : Option ℕ :=
  if startsWith instTok cs then
    match dropLeadingWs (cs.drop instTok.length) with
    | [] => none
    | d :: r2 =>
        if d.isDigit then
          if startsWith closeTok (dropLeadingWs r2) then
            some (d.toNat - 48)
          else none
        else none
  else none

/-- Embeds `re.search` of the label pattern: first matching start position. -/
def searchLabel : List Char → Option ℕ
  | [] => none
  | c :: cs =>
      match matchLabelAt (c :: cs) with
      | some d => some d
      | none => searchLabel cs

/-- Embeds `clean` (load_data.py): the stripped sentence group, or `""` when
the sentence pattern finds no match; the integer label digit, or `-1`
when the label pattern finds no match. -/
def clean (raw_text : String) : String × Int :=
  let frase :=
    match searchFrase raw_text.data with
    | some g => pyStrip (String.mk g)
    | none => ""
  let label : Int :=
    match searchLabel raw_text.data with
    | some d => (d : Int)
    | none => -1
  (frase, label)

/-- Embeds the `label2emotion` dictionary (keys 0–6). -/
def label2emotion (l : Int) : Option String :=
  if l = 0 then some "ira"
  else if l = 1 then some "satisfacción"
  else if l = 2 then some "tristeza"
  else if l = 3 then some "culpa"
  else if l = 4 then some "vergüenza"
  else if l = 5 then some "miedo"
  else if l = 6 then some "asco"
  else none

/-- Embeds `add_emotion` (load_data.py): dictionary lookup with default
`"desconocido"`. -/
def add_emotion (l : Int) : String :=
  (label2emotion l).getD "desconocido"

theorem wizInv_init : WizInv wizInit := by
  simp [wizInit, WizInv, drive_through, steps_guide]

theorem wizInv_step (s : WizState) (h : WizInv s) (e : WizEvent) :
    WizInv (wizStep s e) := by
  obtain ⟨h1, h3, h2e, h2n⟩ := h
  cases e with
  | load hm =>
      simp only [wizStep, wizLoad]
      split
      · next hmv => simp [WizInv, hmv]
      · exact ⟨h1, h3, h2e, h2n⟩
  | next =>
      simp only [wizStep, wizNext]
      split
      · next hg =>
          obtain ⟨hen, hlt⟩ := hg
          rcases Bool.eq_false_or_eq_true s.empty_values with he | he
          · rcases (by omega : s.move = 1 ∨ s.move = 2) with hm | hm
            · simp [WizInv, drive_through, steps_guide, hm, he]
            · simp [WizInv, drive_through, steps_guide, hm, he]
          · have hm2 : s.move ≠ 2 := by
              intro hmv
              exact absurd (h2e hmv) (by simp [he])
            have : s.move = 1 := by omega
            simp [WizInv, drive_through, steps_guide, this, he]
      · exact ⟨h1, h3, h2e, h2n⟩
  | back =>
      simp only [wizStep, wizBack]
      split
      · next hg =>
          rcases Bool.eq_false_or_eq_true s.empty_values with he | he
          · rcases (by omega : s.move = 2 ∨ s.move = 3) with hm | hm
            · simp [WizInv, drive_through, steps_guide, hm, he]
            · simp [WizInv, drive_through, steps_guide, hm, he, h2e]
          · have hm2 : s.move ≠ 2 := by
              intro hmv
              exact absurd (h2e hmv) (by simp [he])
            have : s.move = 3 := by omega
            simp [WizInv, drive_through, steps_guide, this, he]
      · exact ⟨h1, h3, h2e, h2n⟩
  | applyStrategy =>
      simp only [wizStep, wizApply]
      split
      · next hmv => simp [WizInv, hmv, h2e hmv]
      · exact ⟨h1, h3, h2e, h2n⟩

theorem wizInv_reachable {s : WizState} (h : WizReachable s) : WizInv s := by
  induction h with
  | init => exact wizInv_init
  | step hs e ih => exact wizInv_step _ ih e

theorem drive_through_move (s : WizState) :
    (drive_through s).move = s.move := by
  unfold drive_through steps_guide
  split_ifs <;> rfl

/-- C1: in every reachable wizard state the step counter lies in [1,3] (no
action sequence escapes the range), and whenever they fire, `next` adds 1
to the counter if missing values were detected and 2 (skipping Clean)
otherwise, while `back` symmetrically subtracts 1 or 2. -/
theorem wizard_move_in_range {s : WizState} (h : WizReachable s) :
    (1 ≤ s.move ∧ s.move ≤ 3) ∧
    (s.nextEnabled = true → s.move < 3 →
      (wizNext s).move = s.move + (if s.empty_values then 1 else 2)) ∧
    (s.move > 1 →
      (wizBack s).move = s.move - (if s.empty_values then 1 else 2)) := by
  refine ⟨⟨(wizInv_reachable h).1, (wizInv_reachable h).2.1⟩, ?_, ?_⟩
  · intro hen hlt
    unfold wizNext
    rw [if_pos ⟨hen, hlt⟩, drive_through_move]
  · intro hgt
    unfold wizBack
    rw [if_pos hgt, drive_through_move]

/-- Witness for C1: the concrete initial state satisfies the bound and the
transition equations. -/
theorem wizard_move_in_range_witness :
    (1 ≤ wizInit.move ∧ wizInit.move ≤ 3) ∧
    (wizInit.nextEnabled = true → wizInit.move < 3 →
      (wizNext wizInit).move =
        wizInit.move + (if wizInit.empty_values then 1 else 2)) ∧
    (wizInit.move > 1 →
      (wizBack wizInit).move =
        wizInit.move - (if wizInit.empty_values then 1 else 2)) :=
  wizard_move_in_range WizReachable.init

/-- C6: in every reachable state sitting at the Clean step (step 2) with no
cleaning strategy applied yet, the next button is disabled and the `next`
action leaves the state unchanged: the wizard never advances from step 2
to step 3 before `confirm_preprocessing` (the only action that sets
`nan_solved`) has run. -/
theorem wizard_clean_step_gated {s : WizState} (h : WizReachable s)
    (hm : s.move = 2) (hn : s.nan_solved = false) :
    s.nextEnabled = false ∧ wizStep s .next = s := by
  have hinv := wizInv_reachable h
  have hdis : s.nextEnabled = false := hinv.2.2.2 hm hn
  refine ⟨hdis, ?_⟩
  simp [wizStep, wizNext, hdis]

/-- Witness for C6: a concrete reachable state at step 2 with no strategy
applied (load data with missing values, then advance) where the next
action is a no-op. -/
theorem wizard_clean_step_gated_witness :
    (wizStep (wizStep wizInit (.load true)) .next).nextEnabled = false ∧
      wizStep (wizStep (wizStep wizInit (.load true)) .next) .next =
        wizStep (wizStep wizInit (.load true)) .next :=
  wizard_clean_step_gated
    ((WizReachable.init.step (.load true)).step .next)
    (by decide) (by decide)

/-- C3: the mean and median fill strategies preserve the row count exactly,
and the drop strategy removes exactly the rows containing at least one
null (it is a sublist of the input rows, every surviving copy of a
null-free row survives, and rows with a null disappear). -/
theorem fill_preserves_rowcount_drop_exact (t : Table) :
    (fill_with_mean t).rows.length = t.rows.length ∧
    (fill_with_median t).rows.length = t.rows.length ∧
    (remove_missing_values t).rows.Sublist t.rows ∧
    (∀ r : List Cell,
      (remove_missing_values t).rows.count r =
        if rowHasNull r then 0 else t.rows.count r) := by
  refine ⟨?_, ?_, ?_, ?_⟩
  · simp [fill_with_mean, imputeNumeric]
  · simp [fill_with_median, imputeNumeric]
  · exact List.filter_sublist _
  · intro r
    by_cases hr : rowHasNull r
    · rw [if_pos hr, List.count_eq_zero]
      intro hmem
      have := List.of_mem_filter (p := fun r => !rowHasNull r) hmem
      simp [hr] at this
    · rw [if_neg hr]
      rw [remove_missing_values]
      rw [List.count_filter]
      simp [hr]

theorem imputeNumeric_column_of_not_numeric (stat : Table → ℕ → ℚ)
    (t : Table) (j : ℕ) (hj : t.colNumeric j = false) :
    (imputeNumeric stat t).column j = t.column j := by
  unfold imputeNumeric Table.column
  simp only [List.map_map]
  refine List.map_congr_left (fun r _ => ?_)
  simp only [Function.comp_apply]
  rw [List.getD_eq_getElem?_getD, List.getD_eq_getElem?_getD,
    List.getElem?_mapIdx]
  cases hx : r[j]? with
  | none => rfl
  | some c => simp [hj]

/-- C4: the mean, median and constant fill strategies modify only numeric
columns; every non-numeric column — nulls included — is returned
unchanged, cell for cell. -/
theorem fill_strategies_leave_non_numeric_unchanged (t : Table) (j : ℕ)
    (v : ℚ) (hj : t.colNumeric j = false) :
    (fill_with_mean t).column j = t.column j ∧
    (fill_with_median t).column j = t.column j ∧
    (fill_with_constant v t).column j = t.column j :=
  ⟨imputeNumeric_column_of_not_numeric _ t j hj,
   imputeNumeric_column_of_not_numeric _ t j hj,
   imputeNumeric_column_of_not_numeric _ t j hj⟩

/-- Witness for C4: a concrete frame with one categorical column holding a
null and one numeric column; the categorical column is untouched by all
three strategies. -/
theorem fill_strategies_leave_non_numeric_unchanged_witness :
    (fill_with_mean catNumTable).column 0 = catNumTable.column 0 ∧
    (fill_with_median catNumTable).column 0 = catNumTable.column 0 ∧
    (fill_with_constant 7 catNumTable).column 0 = catNumTable.column 0 :=
  fill_strategies_leave_non_numeric_unchanged catNumTable 0 7 (by decide)

/-- Counterexample for C2 as stated: "book.xlsx" exists, its extension is
supported and is not CSV, yet `import_data` raises `ValueError` (the
Excel reader fails on a workbook whose format cannot be determined)
instead of returning a table — the claimed error taxonomy (`ValueError`
only for unsupported extensions or malformed CSV, a table otherwise)
does not hold. -/
theorem import_data_excel_failure_counterexample :
    fsBadXlsx.pathExists "book.xlsx" = true ∧
    extLower "book.xlsx" = ".xlsx" ∧
    supportedExt ".xlsx" = true ∧
    import_data fsBadXlsx "book.xlsx" = ImportResult.valueError := by
  decide

/-- C2 (amended): `import_data` returns `FileNotFoundError` exactly on
nonexistent paths.  On an existing path it raises `ValueError` for an
unsupported extension and for malformed (empty or corrupt) CSV content;
a failure raised inside any dispatched reader is not handled beyond the
`except` clause — the two caught pandas classes re-raise as
`ValueError`, a reader's own `ValueError` propagates as `ValueError`,
any other library error propagates unchanged — and a table comes back
exactly when the dispatched reader succeeds. -/
theorem import_data_on_existing (fs : FileSystem) (p : String)
    (hex : fs.pathExists p = true) :
    import_data fs p =
      (match dispatchReader fs p with
        | .ok t => ImportResult.ok t
        | .error e => pyExcToResult e) := by
  unfold import_data
  rw [hex]
  cases hd : dispatchReader fs p with
  | ok u => rfl
  | error e => cases e <;> rfl

theorem import_data_error_taxonomy_amended (fs : FileSystem) (p : String) :
    (import_data fs p = .fileNotFoundError ↔ fs.pathExists p = false) ∧
    (fs.pathExists p = true → supportedExt (extLower p) = false →
      import_data fs p = .valueError) ∧
    (fs.pathExists p = true → extLower p = ".csv" →
      (fs.readCsv p = .error .emptyDataError ∨
        fs.readCsv p = .error .parserError) →
      import_data fs p = .valueError) ∧
    (fs.pathExists p = true → ∀ e : PyExc, dispatchReader fs p = .error e →
      import_data fs p = pyExcToResult e) ∧
    (fs.pathExists p = true → ∀ t : Table,
      (import_data fs p = .ok t ↔ dispatchReader fs p = .ok t)) := by
  by_cases hex : fs.pathExists p
  · refine ⟨?_, ?_, ?_, ?_, ?_⟩
    · rw [import_data_on_existing fs p hex]
      constructor
      · intro hcon
        rcases hd : dispatchReader fs p with e | u <;> rw [hd] at hcon
        · cases e <;> simp [pyExcToResult] at hcon
        · exact absurd hcon (by simp)
      · intro hfalse
        rw [hfalse] at hex
        exact absurd hex (by simp)
    · intro _ hsup
      have h1 : extLower p ≠ ".csv" := fun h => by
        simp [supportedExt, h] at hsup
      have h2 : extLower p ≠ ".xlsx" := fun h => by
        simp [supportedExt, h] at hsup
      have h3 : extLower p ≠ ".xls" := fun h => by
        simp [supportedExt, h] at hsup
      have h4 : extLower p ≠ ".sqlite" := fun h => by
        simp [supportedExt, h] at hsup
      have h5 : extLower p ≠ ".db" := fun h => by
        simp [supportedExt, h] at hsup
      have hdsp : dispatchReader fs p = .error .valueError := by
        simp only [dispatchReader]
        rw [if_neg h1, if_neg (by tauto), if_neg (by tauto)]
      rw [import_data_on_existing fs p hex, hdsp]
      rfl
    · intro _ hcsv hr
      have hdsp : dispatchReader fs p = fs.readCsv p := by
        simp only [dispatchReader]
        rw [if_pos hcsv]
      rw [import_data_on_existing fs p hex, hdsp]
      rcases hr with h | h <;> rw [h] <;> rfl
    · intro _ e he
      rw [import_data_on_existing fs p hex, he]
    · intro _ t
      rw [import_data_on_existing fs p hex]
      rcases hd : dispatchReader fs p with e | u
      · cases e <;> simp [pyExcToResult]
      · simp
  · simp only [Bool.not_eq_true] at hex
    have hr : import_data fs p = .fileNotFoundError := by
      unfold import_data
      rw [hex]
      rfl
    refine ⟨by simp [hr, hex], ?_, ?_, ?_, ?_⟩ <;> simp [hex]

/-- Witness for the amended C2 at concrete inputs: the Excel failure
propagates as `ValueError` on "book.xlsx", and the well-formed CSV at
"data.csv" comes back as a table. -/
theorem import_data_error_taxonomy_amended_witness :
    import_data fsBadXlsx "book.xlsx" = pyExcToResult PyExc.valueError ∧
    import_data fsCsvOnly "data.csv" = ImportResult.ok catNumTable :=
  ⟨(import_data_error_taxonomy_amended fsBadXlsx "book.xlsx").2.2.2.1
      (by decide) PyExc.valueError (by rfl),
   ((import_data_error_taxonomy_amended fsCsvOnly "data.csv").2.2.2.2
      (by decide) catNumTable).mpr (by rfl)⟩

/-- C5: saving a fitted model bundle and loading it back from the same path
succeeds and yields a model whose prediction on any input vector equals
the original model's prediction exactly. -/
theorem save_load_roundtrip_predictions (s : ModelBundle) (file_path : String)
    (st : FileStore) (x : List ℚ) :
    ∃ md, load_model file_path (save_model s file_path st) = some md ∧
      md.model.predict x = s.model.predict x := by
  refine ⟨{ s with description := defaultedDescription s.description }, ?_, rfl⟩
  simp [load_model, save_model]

/-- C7: with the split seed fixed at 42, `linear_regression` is insensitive
to the ambient PRNG state — two invocations on the same data, columns and
solver produce identical formula, MSE, R², predictions and model. -/
theorem linear_regression_reproducible
    (fit : List (List ℚ) → List ℚ → LinModel) (g g' : ℕ) (data : Table)
    (input_columns output_columns : List String) :
    linear_regression fit g data input_columns output_columns =
      linear_regression fit g' data input_columns output_columns := rfl

theorem encodeNonNumeric_column (t : Table) (j : ℕ)
    (hj : t.colNumeric j = false) (hlen : j < t.header.length)
    (hrect : ∀ r ∈ t.rows, r.length = t.header.length) :
    (encodeNonNumeric t).column j = (t.column j).map (encodeCellAt t j) := by
  unfold encodeNonNumeric Table.column
  simp only [List.map_map]
  refine List.map_congr_left (fun r hr => ?_)
  simp only [Function.comp_apply]
  have hjr : j < r.length := by rw [hrect r hr]; exact hlen
  rw [List.getD_eq_getElem?_getD, List.getD_eq_getElem?_getD,
    List.getElem?_mapIdx]
  rw [List.getElem?_eq_getElem hjr]
  simp [hj]

theorem encodeNonNumeric_dtype (t : Table) (j : ℕ)
    (hj : t.colNumeric j = false) (hlen : j < t.header.length) :
    (encodeNonNumeric t).colNumeric j = true := by
  unfold encodeNonNumeric Table.colNumeric at *
  rw [List.getD_eq_getElem?_getD, List.getElem?_map,
    List.getElem?_eq_getElem hlen]
  rw [List.getD_eq_getElem?_getD, List.getElem?_eq_getElem hlen] at hj
  simp only [Option.getD_some] at hj
  simp [hj]

/-- C9: `linear_regression` mutates the caller's frame in place: after the
call, every non-numeric column — the output column included, if it is
non-numeric — holds the float64 label encoding of its former contents
(its dtype turns numeric), and none of its former non-numeric cell values
survive at their position. -/
theorem linear_regression_mutates_frame
    (fit : List (List ℚ) → List ℚ → LinModel) (g : ℕ) (data : Table)
    (input_columns output_columns : List String) (j : ℕ)
    (hj : data.colNumeric j = false) (hlen : j < data.header.length)
    (hrect : ∀ r ∈ data.rows, r.length = data.header.length) :
    ((linear_regression fit g data input_columns output_columns).2.column j =
      (data.column j).map (encodeCellAt data j)) ∧
    ((linear_regression fit g data input_columns output_columns).2.colNumeric j
      = true) ∧
    (∀ i, i < (data.column j).length →
      ((data.column j).getD i .null).isNum = false →
      ((linear_regression fit g data input_columns output_columns).2.column
          j).getD i .null ≠ (data.column j).getD i .null) := by
  have h2 : (linear_regression fit g data input_columns output_columns).2 =
      encodeNonNumeric data := rfl
  rw [h2]
  refine ⟨encodeNonNumeric_column data j hj hlen hrect,
    encodeNonNumeric_dtype data j hj hlen, ?_⟩
  intro i hi hnum heq
  obtain ⟨c, hc⟩ : ∃ c, (data.column j)[i]? = some c :=
    ⟨_, List.getElem?_eq_getElem hi⟩
  rw [encodeNonNumeric_column data j hj hlen hrect] at heq
  rw [List.getD_eq_getElem?_getD, List.getElem?_map, hc] at heq
  rw [List.getD_eq_getElem?_getD, hc] at heq
  rw [List.getD_eq_getElem?_getD, hc] at hnum
  simp only [Option.map_some', Option.getD_some] at heq hnum
  cases c <;> simp_all [encodeCellAt, Cell.isNum]

/-- Witness for C9: on a concrete frame with a categorical first column, the
frame returned by `linear_regression` holds that column's label encoding,
now with numeric dtype, and none of its former cell values. -/
theorem linear_regression_mutates_frame_witness :
    ((linear_regression constFit 0 catNumTable ["weight"] ["species"]).2.column
        0 = (catNumTable.column 0).map (encodeCellAt catNumTable 0)) ∧
    ((linear_regression constFit 0 catNumTable ["weight"]
        ["species"]).2.colNumeric 0 = true) ∧
    (∀ i, i < (catNumTable.column 0).length →
      ((catNumTable.column 0).getD i .null).isNum = false →
      ((linear_regression constFit 0 catNumTable ["weight"]
          ["species"]).2.column 0).getD i .null ≠
        (catNumTable.column 0).getD i .null) :=
  linear_regression_mutates_frame constFit 0 catNumTable ["weight"]
    ["species"] 0 (by decide) (by decide) (by decide)

theorem fmt2_one : fmt2 1 = "1.00" := by
  unfold fmt2 roundHalfEven pad2
  norm_num
  rfl

theorem fmt2_two : fmt2 2 = "2.00" := by
  unfold fmt2 roundHalfEven pad2
  norm_num
  rfl

theorem build_formula_foldl_aux (full : List String) (coefs : List ℚ)
    (rest : List String) (k : ℕ) (s : String)
    (hk : ∀ i, i < coefs.length → full.getD (k + i) "" = rest.getD i "")
    (hlen : coefs.length = rest.length) :
    (List.enumFrom k coefs).foldl
      (fun formula p =>
        formula ++ " + (" ++ fmt2 p.2 ++ ") * " ++ full.getD p.1 "")
      s =
    s ++ strConcat ((coefs.zip rest).map
      (fun p => " + (" ++ fmt2 p.1 ++ ") * " ++ p.2)) := by
  induction coefs generalizing rest k s with
  | nil => simp [strConcat]
  | cons c cs ih =>
      cases rest with
      | nil => simp at hlen
      | cons r rs =>
          simp only [List.enumFrom_cons, List.foldl_cons, List.zip_cons_cons,
            List.map_cons, strConcat]
          have h0 : full.getD k "" = r := by
            have h := hk 0 (by simp)
            simpa using h
          rw [h0]
          rw [ih rs (k + 1) _ ?_ (by simpa using hlen)]
          · simp [String.append_assoc, List.zip]
          · intro i hi
            have h := hk (i + 1) (by simpa using Nat.succ_lt_succ hi)
            rw [show k + (i + 1) = k + 1 + i by omega] at h
            simpa using h

/-- C8 (amended): for a singleton output-column list, the formula built by
`linear_regression` is the Python list rendering of the output list, an
equality sign, the 2-decimal intercept, and one ` + (coef) * column`
chunk per coefficient. -/
theorem build_formula_matches_amended (out : String) (b : ℚ)
    (coefs : List ℚ) (cols : List String) (hlen : coefs.length = cols.length) :
    build_formula [out] b coefs cols = amendedFormula out b coefs cols := by
  unfold build_formula amendedFormula
  rw [show (List.enum coefs) = List.enumFrom 0 coefs from rfl]
  rw [build_formula_foldl_aux cols coefs cols 0 _ (fun i _ => by simp) hlen]

/-- Witness for the amended C8 on concrete values: intercept 1, single
coefficient 2, input column "x", output column "y". -/
theorem build_formula_matches_amended_witness :
    build_formula ["y"] 1 [2] ["x"] = amendedFormula "y" 1 [2] ["x"] :=
  build_formula_matches_amended "y" 1 [2] ["x"] rfl

/-- Counterexample for C8 as stated: a concrete fitted regression over input
column "x" and output column "y" with intercept 1 and coefficient 2
returns a formula string differing from
`y = 1.00 + (2.00)*x` — the code renders the output-column list, giving
`['y'] = 1.00 + (2.00) * x`. -/
theorem regression_formula_not_as_claimed :
    (linear_regression constFit 0 catNumTable ["x"] ["y"]).1.formula ≠
      claimedFormula "y"
        (linear_regression constFit 0 catNumTable ["x"]
          ["y"]).1.model.intercept
        (linear_regression constFit 0 catNumTable ["x"] ["y"]).1.model.coef
        ["x"] := by
  have h1 : (linear_regression constFit 0 catNumTable ["x"] ["y"]).1.formula =
      build_formula ["y"] 1 [2] ["x"] := rfl
  have h2 : (linear_regression constFit 0 catNumTable ["x"] ["y"]).1.model =
      ⟨1, [2]⟩ := rfl
  rw [h1, h2]
  have e1 : build_formula ["y"] 1 [2] ["x"] =
      "[" ++ squote ++ "y" ++ squote ++ "] = 1.00 + (2.00) * x" := by
    unfold build_formula pyStrListRepr
    simp [fmt2_one, fmt2_two, String.intercalate]
    decide
  have e2 : claimedFormula "y" 1 [2] ["x"] = "y = 1.00 + (2.00)*x" := by
    unfold claimedFormula strConcat
    simp [fmt2_one, fmt2_two]
    decide
  rw [e1, e2]
  decide

/-- C10: the cleaning pipeline is total with explicit defaults — when the
sentence pattern has no match the sentence defaults to `""`, when the
label pattern has no match the label defaults to `-1` (no exception
path exists), and every label outside 0..6 maps to `"desconocido"`. -/
theorem clean_total_with_defaults (raw : String) (l : Int)
    (hf : searchFrase raw.data = none)
    (hl : searchLabel raw.data = none)
    (hout : l < 0 ∨ 6 < l) :
    (clean raw).1 = "" ∧ (clean raw).2 = -1 ∧ add_emotion l = "desconocido" := by
  refine ⟨?_, ?_, ?_⟩
  · simp [clean, hf]
  · simp [clean, hl]
  · unfold add_emotion label2emotion
    rw [if_neg (by omega), if_neg (by omega), if_neg (by omega),
      if_neg (by omega), if_neg (by omega), if_neg (by omega),
      if_neg (by omega)]
    rfl

/-- Witness for C10: the concrete input "hello" matches neither pattern and
label 7 is outside the dictionary. -/
theorem clean_total_with_defaults_witness :
    (clean "hello").1 = "" ∧ (clean "hello").2 = -1 ∧
      add_emotion 7 = "desconocido" :=
  clean_total_with_defaults "hello" 7 (by decide) (by decide) (by decide)
